import Mathlib

/-!
Verification of the Mach7 pattern-combinator layer
(code/msvc/Versity/mach7/patterns/combinators.hpp).

The header defines three combinator templates, `conjunction<P1,P2>`,
`disjunction<P1,P2>` and `negation<P1>`, each a Pattern: it exposes a
call operator `bool operator()(const T& subject) const` and a type
function `accepted_type_for<S>`.  Global operators `&&`, `||` and `!`
normalize their operands through `mch::filter` and build the
corresponding combinator.

Shallow embedding used below:
* a `Pattern Ty α` bundles the value-level predicate (the call
  operator) with the type-level function `accepted_type_for`, taken
  over a universe `Ty` of subject-type names; an `accepted_type_for`
  result of `none` models a C++ `static_assert` failure raised when
  that instantiation is forced;
* the combinators become functions `Pattern Ty α → Pattern Ty α`,
  translated clause by clause from the header;
* to reason about evaluation order and side effects of sub-pattern
  calls, `PatternM σ α` is the same call operator with an explicit
  mutable state `σ` threaded through, and `conjunctionRun`,
  `disjunctionRun`, `negationRun` translate the bodies
  `m_p1(subject) && m_p2(subject)`, `m_p1(subject) || m_p2(subject)`
  and `!m_p1(subject)` with the C++ sequencing of `&&`, `||`, `!`
  made explicit.
-/

namespace Mach7

/-- The Pattern concept of combinators.hpp: a callable
`bool operator()(const T& subject) const` together with the type
function `accepted_type_for<S>`.  `Ty` is the universe of subject-type
names; `accepted_type_for S = none` models a failing `static_assert`
inside the instantiation of the type function. -/
structure Pattern (Ty : Type) (α : Type) where
  mmatch : α → Bool
  accepted_type_for : Ty → Option Ty

/-- Conjunction pattern combinator (struct `conjunction<P1,P2>`).
The call operator returns `m_p1(subject) && m_p2(subject)`;
`accepted_type_for<S>` asserts via `static_assert` that the types
accepted by `P1` and `P2` for `S` are the same and typedefs `P1`'s
accepted type. -/
def conjunction {Ty α : Type} [DecidableEq Ty]
    (m_p1 m_p2 : Pattern Ty α) : Pattern Ty α where
  mmatch := fun subject => m_p1.mmatch subject && m_p2.mmatch subject
  accepted_type_for := fun S =>
    match m_p1.accepted_type_for S, m_p2.accepted_type_for S with
    | some t1, some t2 => if t1 = t2 then some t1 else none
    | _, _ => none

/-- Disjunction pattern combinator (struct `disjunction<P1,P2>`).
The call operator returns `m_p1(subject) || m_p2(subject)`;
`accepted_type_for<S>` has the same `static_assert` as `conjunction`. -/
def disjunction {Ty α : Type} [DecidableEq Ty]
    (m_p1 m_p2 : Pattern Ty α) : Pattern Ty α where
  mmatch := fun subject => m_p1.mmatch subject || m_p2.mmatch subject
  accepted_type_for := fun S =>
    match m_p1.accepted_type_for S, m_p2.accepted_type_for S with
    | some t1, some t2 => if t1 = t2 then some t1 else none
    | _, _ => none

/-- Negation pattern combinator (struct `negation<P1>`).
The call operator returns `!m_p1(subject)`.  Its type function is
`template <typename S> struct accepted_type_for :
P1::template accepted_type_for<S> { typedef S type; };` — it inherits
from (hence instantiates) `P1`'s type function, but the member typedef
`type` is `S` itself, hiding the inherited one. -/
def negation {Ty α : Type} (m_p1 : Pattern Ty α) : Pattern Ty α where
  mmatch := fun subject => ! m_p1.mmatch subject
  accepted_type_for := fun S =>
    match m_p1.accepted_type_for S with
    | some _ => some S
    | none => none

/-- A sub-pattern call with its side effects made explicit.  In C++ a
sub-pattern invocation `m_p1(subject)` may mutate state external to the
combinator (the sub-pattern object itself, bound variables, the
subject); `σ` stands for all of that mutable state, threaded through
each call. -/
structure PatternM (σ : Type) (α : Type) where
  mmatch : σ → α → σ × Bool

/-- The body `return m_p1(subject) && m_p2(subject);` of
`conjunction::operator()` with the sequencing of the C++ built-in `&&`
made explicit: `m_p1` is called first; only when its result is `true`
is `m_p2` called, on the state left by `m_p1`. -/
def conjunctionRun {σ α : Type} (m_p1 m_p2 : PatternM σ α)
    (st : σ) (subject : α) : σ × Bool :=
  let r1 := m_p1.mmatch st subject
  if r1.2 then m_p2.mmatch r1.1 subject else (r1.1, false)

/-- The body `return m_p1(subject) || m_p2(subject);` of
`disjunction::operator()` with the sequencing of the C++ built-in `||`
made explicit: `m_p1` is called first; only when its result is `false`
is `m_p2` called, on the state left by `m_p1`. -/
def disjunctionRun {σ α : Type} (m_p1 m_p2 : PatternM σ α)
    (st : σ) (subject : α) : σ × Bool :=
  let r1 := m_p1.mmatch st subject
  if r1.2 then (r1.1, true) else m_p2.mmatch r1.1 subject

/-- The body `return !m_p1(subject);` of `negation::operator()` with
the state of the sub-pattern call made explicit. -/
def negationRun {σ α : Type} (m_p1 : PatternM σ α)
    (st : σ) (subject : α) : σ × Bool :=
  let r1 := m_p1.mmatch st subject
  (r1.1, ! r1.2)

/-- An argument of the global operators `&&`, `||`, `!`: either
something that already satisfies the Pattern concept, or a plain value
(an `int`, say) to be lifted into an equality pattern. -/
inductive Operand (Ty : Type) (α : Type) where
  | pat : Pattern Ty α → Operand Ty α
  | val : α → Operand Ty α

/-- The meta-predicate `mch::is_pattern` on an operand. -/
def is_pattern {Ty α : Type} : Operand Ty α → Bool
  | .pat _ => true
  | .val _ => false

/-- The meta-predicate `mch::either_is_pattern<P1,P2>` used in the
`std::enable_if` guard of the global `&&` and `||` operators. -/
def either_is_pattern {Ty α : Type} (o1 o2 : Operand Ty α) : Bool :=
  is_pattern o1 || is_pattern o2

/-- Modelled from the spec: the equality pattern produced by the
value-to-pattern normalization adapter (`mch::value` in primitive.hpp,
which is not under src/).  It wraps a plain comparable value and
matches a subject exactly when the subject equals that value. -/
def value_pat {Ty α : Type} [DecidableEq α] (v : α) : Pattern Ty α where
  mmatch := fun subject => decide (subject = v)
  accepted_type_for := fun S => some S

/-- Modelled from the spec: `mch::filter` (declared in primitive.hpp,
which is not under src/), the normalization applied by the global
operators to each operand: an operand that already satisfies the
Pattern concept is used unchanged, a plain value is lifted into an
implicit equality pattern wrapping that value. -/
def filter {Ty α : Type} [DecidableEq α] : Operand Ty α → Pattern Ty α
  | .pat p => p
  | .val v => value_pat v

/-- The global `operator&&` (combinators.hpp lines 139-156): guarded by
`std::enable_if<mch::either_is_pattern<P1,P2>::value, ...>` (the
overload does not exist otherwise, modelled by `none`), it returns by
value `mch::conjunction` of the two filtered operands. -/
def op_and {Ty α : Type} [DecidableEq Ty] [DecidableEq α]
    (p1 p2 : Operand Ty α) : Option (Pattern Ty α) :=
  if either_is_pattern p1 p2 then
    some (conjunction (filter p1) (filter p2))
  else none

/-- The global `operator||` (combinators.hpp lines 162-179): guarded by
`std::enable_if<mch::either_is_pattern<P1,P2>::value, ...>`, it returns
by value `mch::disjunction` of the two filtered operands. -/
def op_or {Ty α : Type} [DecidableEq Ty] [DecidableEq α]
    (p1 p2 : Operand Ty α) : Option (Pattern Ty α) :=
  if either_is_pattern p1 p2 then
    some (disjunction (filter p1) (filter p2))
  else none

/-- The global `operator!` (combinators.hpp lines 185-193): guarded by
`std::enable_if<mch::is_pattern<P1>::value, ...>`, it returns by value
`mch::negation` of the filtered operand. -/
def op_not {Ty α : Type} [DecidableEq Ty] [DecidableEq α]
    (p1 : Operand Ty α) : Option (Pattern Ty α) :=
  if is_pattern p1 then some (negation (filter p1)) else none

/-- Claim C1: for every pair of patterns `a`, `b` and every subject
`s`, the conjunction combinator built from `a` and `b`, when invoked on
`s`, returns exactly the boolean AND of the result of `a` on `s` and
the result of `b` on `s`. -/
theorem conjunction_matches_and {Ty α : Type} [DecidableEq Ty]
    (a b : Pattern Ty α) (s : α) :
    (conjunction a b).mmatch s = (a.mmatch s && b.mmatch s) := rfl

/-- Claim C2: for every pair of patterns `a`, `b` and every subject
`s`, the disjunction combinator built from `a` and `b`, when invoked on
`s`, returns exactly the boolean OR of the result of `a` on `s` and the
result of `b` on `s`. -/
theorem disjunction_matches_or {Ty α : Type} [DecidableEq Ty]
    (a b : Pattern Ty α) (s : α) :
    (disjunction a b).mmatch s = (a.mmatch s || b.mmatch s) := rfl

/-- Claim C3: for every pattern `a` and every subject `s`, the negation
combinator built from `a`, when invoked on `s`, returns the logical
complement of the result of `a` on `s`. -/
theorem negation_matches_not {Ty α : Type}
    (a : Pattern Ty α) (s : α) :
    (negation a).mmatch s = ! a.mmatch s := rfl

/-- Claim C7: De Morgan consistency — for every pair of patterns `a`,
`b` and every subject `s`, negating the disjunction of `a` and `b`
gives on `s` the same boolean as the conjunction of the negations of
`a` and `b`. -/
theorem negation_disjunction_de_morgan {Ty α : Type} [DecidableEq Ty]
    (a b : Pattern Ty α) (s : α) :
    (negation (disjunction a b)).mmatch s
      = (conjunction (negation a) (negation b)).mmatch s := by
  show (! (a.mmatch s || b.mmatch s)) = ((! a.mmatch s) && (! b.mmatch s))
  cases a.mmatch s <;> cases b.mmatch s <;> rfl

/-- Claim C8: double negation — for every pattern `a` and every
subject `s`, negating a negation of `a` gives on `s` the same boolean
as `a` itself. -/
theorem negation_negation_id {Ty α : Type}
    (a : Pattern Ty α) (s : α) :
    (negation (negation a)).mmatch s = a.mmatch s := by
  show (! ! a.mmatch s) = a.mmatch s
  cases a.mmatch s <;> rfl

/-- Claim C4: evaluation is short-circuiting and left-to-right.  For
a sub-pattern `p1f` whose call on `s` yields `false` and a sub-pattern
`p1t` whose call on `s` yields `true`: a conjunction with first operand
`p1f` returns `false` without calling its second operand (its whole
result, state included, is independent of which second operand `p2` or
`q2` it holds); a disjunction with first operand `p1t` returns `true`
without calling its second operand; and whenever the second operand is
called, it is called on the state left by the first operand, so the
first operand is always evaluated before the second. -/
theorem short_circuit_left_to_right {σ α : Type}
    (p1f p1t p2 q2 : PatternM σ α) (st : σ) (s : α)
    (hf : (p1f.mmatch st s).2 = false)
    (ht : (p1t.mmatch st s).2 = true) :
    conjunctionRun p1f p2 st s = ((p1f.mmatch st s).1, false) ∧
    conjunctionRun p1f p2 st s = conjunctionRun p1f q2 st s ∧
    disjunctionRun p1t p2 st s = ((p1t.mmatch st s).1, true) ∧
    disjunctionRun p1t p2 st s = disjunctionRun p1t q2 st s ∧
    conjunctionRun p1t p2 st s = p2.mmatch (p1t.mmatch st s).1 s ∧
    disjunctionRun p1f p2 st s = p2.mmatch (p1f.mmatch st s).1 s := by
  refine ⟨?_, ?_, ?_, ?_, ?_, ?_⟩ <;>
    simp [conjunctionRun, disjunctionRun, hf, ht]

/-- Claim C4 witness: with a first sub-pattern that logs `1` and
returns `false`, the conjunction result is the same whether the second
sub-pattern logs `2` and accepts or logs `3` and rejects — the second
sub-pattern is never called. -/
theorem short_circuit_left_to_right_witness :
    ((⟨fun st _ => (st ++ [1], false)⟩ :
        PatternM (List Nat) Nat).mmatch [] 0).2 = false ∧
    conjunctionRun (⟨fun st _ => (st ++ [1], false)⟩ : PatternM (List Nat) Nat)
        ⟨fun st _ => (st ++ [2], true)⟩ [] 0
      = conjunctionRun (⟨fun st _ => (st ++ [1], false)⟩ : PatternM (List Nat) Nat)
        ⟨fun st _ => (st ++ [3], false)⟩ [] 0 :=
  ⟨rfl,
   (short_circuit_left_to_right
      (⟨fun st _ => (st ++ [1], false)⟩ : PatternM (List Nat) Nat)
      ⟨fun st _ => (st ++ [1], true)⟩
      ⟨fun st _ => (st ++ [2], true)⟩
      ⟨fun st _ => (st ++ [3], false)⟩
      [] 0 rfl rfl).2.1⟩

/-- Claim C10: a combinator call is a const, read-only tree walk.  With
`σ` standing for all mutable state a sub-pattern call could touch (the
sub-pattern objects `m_p1`, `m_p2` themselves and the subject), if
neither sub-pattern call mutates that state, then evaluating the
conjunction, disjunction or negation combinator leaves the state
unchanged: the combinator bodies add no mutation of their own. -/
theorem combinators_const_frame {σ α : Type}
    (p1 p2 : PatternM σ α)
    (h1 : ∀ st s, (p1.mmatch st s).1 = st)
    (h2 : ∀ st s, (p2.mmatch st s).1 = st)
    (st : σ) (s : α) :
    (conjunctionRun p1 p2 st s).1 = st ∧
    (disjunctionRun p1 p2 st s).1 = st ∧
    (negationRun p1 st s).1 = st := by
  refine ⟨?_, ?_, ?_⟩ <;>
    cases h : (p1.mmatch st s).2 <;>
      simp [conjunctionRun, disjunctionRun, negationRun, h, h1, h2]

/-- Claim C10 witness: for two stateless predicate patterns over `Nat`
subjects, every combinator evaluation leaves the state `7` unchanged. -/
theorem combinators_const_frame_witness :
    (conjunctionRun (⟨fun st s => (st, decide (s % 2 = 0))⟩ : PatternM Nat Nat)
        ⟨fun st s => (st, decide (0 < s))⟩ 7 4).1 = 7 ∧
    (disjunctionRun (⟨fun st s => (st, decide (s % 2 = 0))⟩ : PatternM Nat Nat)
        ⟨fun st s => (st, decide (0 < s))⟩ 7 4).1 = 7 ∧
    (negationRun (⟨fun st s => (st, decide (s % 2 = 0))⟩ : PatternM Nat Nat)
        7 4).1 = 7 :=
  combinators_const_frame
    (⟨fun st s => (st, decide (s % 2 = 0))⟩ : PatternM Nat Nat)
    ⟨fun st s => (st, decide (0 < s))⟩
    (fun _ _ => rfl) (fun _ _ => rfl) 7 4

/-- Claim C5 counterexample: a pattern whose accepted type for the
subject type `0` is `5`; wrapping it in negation changes the accepted
type to the subject type `0` itself, so negation does not forward the
accepted type of its sub-pattern. -/
theorem negation_accepted_forwarding_fails :
    (negation (⟨fun _ => true, fun _ => some 5⟩ : Pattern Nat Nat)).accepted_type_for 0
      ≠ (⟨fun _ => true, fun _ => some 5⟩ : Pattern Nat Nat).accepted_type_for 0 := by
  decide

/-- Claim C5 amended: for every pattern `P1` and every subject type
`S`, the accepted type of `negation P1` for `S` is `S` itself — defined
exactly when the accepted type of `P1` for `S` is defined (the
inherited instantiation of the type function of `P1` must succeed), and
equal to the accepted type of `P1` only when that type is `S`. -/
theorem negation_accepted_type_is_subject {Ty α : Type}
    (p : Pattern Ty α) (S : Ty) :
    (negation p).accepted_type_for S
      = Option.map (fun _ => S) (p.accepted_type_for S) := by
  show (match p.accepted_type_for S with
        | some _ => some S
        | none => none)
      = Option.map (fun _ => S) (p.accepted_type_for S)
  cases p.accepted_type_for S <;> rfl

/-- Claim C6: building a conjunction or disjunction from two patterns
whose accepted types for some subject type `S` differ is rejected by
the static check inside `accepted_type_for<S>` (modelled by the `none`
result), which the external dispatch engine instantiates before any
call of the combinator is reachable; and the call operator of a built
combinator tree is a total boolean function — on every subject it
returns one of `true` and `false`, with no error path. -/
theorem accepted_type_mismatch_rejected {Ty α : Type} [DecidableEq Ty]
    (p1 p2 : Pattern Ty α) (S : Ty) (t1 t2 : Ty)
    (h1 : p1.accepted_type_for S = some t1)
    (h2 : p2.accepted_type_for S = some t2)
    (hne : t1 ≠ t2) :
    (conjunction p1 p2).accepted_type_for S = none ∧
    (disjunction p1 p2).accepted_type_for S = none ∧
    (∀ s, (conjunction p1 p2).mmatch s = true ∨
          (conjunction p1 p2).mmatch s = false) ∧
    (∀ s, (disjunction p1 p2).mmatch s = true ∨
          (disjunction p1 p2).mmatch s = false) := by
  refine ⟨?_, ?_, fun s => Bool.eq_false_or_eq_true _,
          fun s => Bool.eq_false_or_eq_true _⟩ <;>
    simp [conjunction, disjunction, h1, h2, hne]

/-- Claim C6 witness: two concrete patterns accepting types `1` and `2`
for the subject type `0`; their conjunction is rejected by the
accepted-type check at `0`. -/
theorem accepted_type_mismatch_rejected_witness :
    ((⟨fun _ => true, fun _ => some 1⟩ : Pattern Nat Nat).accepted_type_for 0
        = some 1) ∧
    ((⟨fun _ => false, fun _ => some 2⟩ : Pattern Nat Nat).accepted_type_for 0
        = some 2) ∧
    (conjunction (⟨fun _ => true, fun _ => some 1⟩ : Pattern Nat Nat)
        ⟨fun _ => false, fun _ => some 2⟩).accepted_type_for 0 = none :=
  ⟨rfl, rfl,
   (accepted_type_mismatch_rejected
      (⟨fun _ => true, fun _ => some 1⟩ : Pattern Nat Nat)
      ⟨fun _ => false, fun _ => some 2⟩
      0 1 2 rfl rfl (by decide)).1⟩

/-- Claim C9: when at least one operand satisfies the Pattern
capability, the global `&&` operator normalizes each operand through
`filter` and returns a conjunction over the normalized operands;
symmetrically `||` returns a disjunction, and `!` (which requires its
operand to be a pattern) returns a negation over its normalized
operand.  A pattern operand is passed through `filter` unchanged, and a
plain value operand is lifted into the equality pattern wrapping that
value, which matches a subject exactly when the subject equals the
value. -/
theorem operators_normalize_and_build {Ty α : Type}
    [DecidableEq Ty] [DecidableEq α] (o1 o2 o : Operand Ty α)
    (h12 : either_is_pattern o1 o2 = true)
    (h : is_pattern o = true) :
    op_and o1 o2 = some (conjunction (filter o1) (filter o2)) ∧
    op_or o1 o2 = some (disjunction (filter o1) (filter o2)) ∧
    op_not o = some (negation (filter o)) ∧
    (∀ p : Pattern Ty α, filter (Operand.pat p) = p) ∧
    (∀ v s : α,
      (filter (Operand.val v : Operand Ty α)).mmatch s = decide (s = v)) := by
  refine ⟨?_, ?_, ?_, fun p => rfl, fun v s => rfl⟩ <;>
    simp [op_and, op_or, op_not, h12, h]

/-- Claim C9 witness: applying the global `&&` to a wildcard-like
pattern and the plain value `3` yields the conjunction of the pattern
and the equality pattern wrapping `3`. -/
theorem operators_normalize_and_build_witness :
    op_and (Operand.pat (⟨fun _ => true, fun S => some S⟩ : Pattern Nat Nat))
        (Operand.val 3)
      = some (conjunction
          (filter (Operand.pat (⟨fun _ => true, fun S => some S⟩ : Pattern Nat Nat)))
          (filter (Operand.val 3))) :=
  (operators_normalize_and_build
      (Operand.pat (⟨fun _ => true, fun S => some S⟩ : Pattern Nat Nat))
      (Operand.val 3)
      (Operand.pat (⟨fun _ => true, fun S => some S⟩ : Pattern Nat Nat))
      rfl rfl).1

end Mach7
